import Mathlib

/-!
Shallow embedding of the calendar/event REST API repository
(auth middleware, auth routes, calendar routes, event routes,
credential validator, token utilities) and proofs of the spec claims.

Conventions of the embedding:
* Mongo ObjectIds are modelled as `Nat`; the string/ObjectId
  `toString` comparisons in the source become `Nat` equality.
* Timestamps (`Date` values) are modelled as `Int` milliseconds since
  the epoch, with the process-local timezone offset taken as zero
  (the `setHours` day-boundary arithmetic is modelled explicitly).
* Each route handler becomes a pure function from the request data and
  the database state to a typed result (one constructor per distinct
  response shape of the handler) together with the post-state.
* `jwt.sign` is modelled by token constructors carrying the signed
  claims; `jwt.verify` outcomes are a parameter of the functions that
  call it (signature/expiry checking is outside the embedding).
* `bcrypt.hash` is modelled as a parameter `hash : String → String`
  (the error branch of the hash callback is not taken in the model).
-/

namespace TRJ

/-- Claims payload signed into a token by utils/accessToken.js and
utils/refreshToken.js: email, id, name, role of the user. -/
structure TokenPayload where
  email : String
  id : Nat
  name : String
  role : Option String
deriving DecidableEq

/-- Tokens modelled as the claims they were signed over, tagged by which
secret signed them (JWT_SECRET vs JWT_REFRESH_SECRET). -/
inductive Token where
  | access (payload : TokenPayload)
  | refresh (payload : TokenPayload)
deriving DecidableEq

/-- Modelled from the spec: the Identity schema (models/user.model.js is
not present in the sources; spec section 3 gives the record as
id, email, password (hashed), name, role, nullable current refresh
token). `role` is optional since registration never sets it. -/
structure User where
  id : Nat
  email : String
  password : String
  name : String
  role : Option String
  refreshToken : Option Token
deriving DecidableEq

/-- Identity summary as returned by queries that exclude the sensitive
fields (`.select("-password -refreshToken")` / the populate projections):
the record minus `password` and `refreshToken`. -/
structure UserSummary where
  id : Nat
  email : String
  name : String
  role : Option String
deriving DecidableEq

/-- Projection performed by `-password -refreshToken` field selection. -/
def stripSensitive (u : User) : UserSummary :=
  { id := u.id, email := u.email, name := u.name, role := u.role }

/-- Event document (models/event.model.js): title, description,
startTime, endTime, location, organizer reference, attendee refs. -/
structure Event where
  id : Nat
  title : String
  description : String
  startTime : Int
  endTime : Int
  location : String
  organizer : Nat
  attendees : List Nat
deriving DecidableEq

/-- Calendar document (calendar model in the sources): name, owner
reference, list of event references. -/
structure Calendar where
  id : Nat
  name : String
  owner : Nat
  events : List Nat
deriving DecidableEq

/-- Database state: the four collections used by the routes. The
blacklist collection stores `{token, expiresAt}` records; only the
token field is ever queried, so records are modelled by their token. -/
structure Store where
  users : List User
  calendars : List Calendar
  events : List Event
  blacklist : List Token
deriving DecidableEq

/-- Translation of utils/accessToken.js `generateAccessToken`:
jwt.sign over email, id, name, role with JWT_SECRET. -/
def generateAccessToken (u : User) : Token :=
  .access { email := u.email, id := u.id, name := u.name, role := u.role }

/-- Translation of utils/refreshToken.js `generateRefreshToken`:
jwt.sign over the same claims with JWT_REFRESH_SECRET. -/
def generateRefreshToken (u : User) : Token :=
  .refresh { email := u.email, id := u.id, name := u.name, role := u.role }

/-! Credential validator (utils/passwordValidation.js). -/

/-- Characters matched by the regex whitespace class in the email
pattern. The common JS whitespace characters are enumerated; exotic
Unicode space separators never occur in the inputs considered. -/
def isJsSpace (c : Char) : Bool :=
  c = ' ' || c = '\t' || c = '\n' || c = '\r' ||
  c = '\x0b' || c = '\x0c' || c = '\u00A0' || c = '\uFEFF'

/-- Character class of `specialCharRegex` in the validator. -/
def specialChars : List Char :=
  ['!', '@', '#', '$', '%', '^', '&', '*', '(', ')', ',', '.', '?',
   '"', ':', '\x7b', '\x7d', '|', '<', '>']

/-- Decision of the email pattern (one or more non-space non-at
characters, an at sign, then a domain part that is non-space non-at
and has a dot at an interior position). A string matches exactly when
it splits as local @ domain with a nonempty local part, a single at
sign, no whitespace anywhere, and a dot in the domain that is neither
its first nor its last character. -/
def emailRegexTest (email : String) : Bool :=
  let cs := email.toList
  let localPart := cs.takeWhile (fun c => !(c = '@'))
  match cs.dropWhile (fun c => !(c = '@')) with
  | [] => false
  | _ :: domain =>
    !localPart.isEmpty &&
    !domain.contains '@' &&
    (localPart ++ domain).all (fun c => !isJsSpace c) &&
    (domain.drop 1).dropLast.contains '.'

/-- Translation of `validateUserCredentials` from
utils/passwordValidation.js: email pattern, then the five password
rules, in source order, returning the message of the first failure. -/
def validateUserCredentials (email password : String) : Option String :=
  if !emailRegexTest email then
    some "Invalid email format"
  else if password.length < 8 then
    some "Password must be at least 8 characters long"
  else if !password.toList.any Char.isUpper then
    some "Password must contain at least one uppercase letter"
  else if !password.toList.any Char.isLower then
    some "Password must contain at least one lowercase letter"
  else if !password.toList.any Char.isDigit then
    some "Password must contain at least one digit"
  else if !password.toList.any (fun c => specialChars.contains c) then
    some "Password must contain at least one special character"
  else
    none

/-- Specification-side rule table: the fixed order of checks, each a
pass condition paired with its violation message. -/
def credentialRules (email password : String) : List (Bool × String) :=
  [ (emailRegexTest email, "Invalid email format"),
    (decide (8 ≤ password.length),
      "Password must be at least 8 characters long"),
    (password.toList.any Char.isUpper,
      "Password must contain at least one uppercase letter"),
    (password.toList.any Char.isLower,
      "Password must contain at least one lowercase letter"),
    (password.toList.any Char.isDigit,
      "Password must contain at least one digit"),
    (password.toList.any (fun c => specialChars.contains c),
      "Password must contain at least one special character") ]

/-- Specification-side validator: the message of the first rule in the
fixed order whose pass condition fails, none when all pass. -/
def firstViolation (email password : String) : Option String :=
  ((credentialRules email password).find? (fun r => !r.1)).map (fun r => r.2)

/-! Auth middleware (two variants in the sources). -/

/-- Outcome of the auth middleware: an early JSON rejection with a
status and message, or proceeding to the handler with the decoded
claims attached as `req.user`. -/
inductive AuthResult where
  | reject (status : Nat) (message : String)
  | proceed (decoded : TokenPayload)
deriving DecidableEq

/-- Translation of the blacklist variant of `authMiddleware`: missing
header rejects 403; a token recorded in the Blacklist collection
rejects 403 revoked; otherwise `jwt.verify` decides between 401 and
proceeding. `verify` models `jwt.verify` with JWT_SECRET. -/
def authMiddlewareBlacklist (verify : Token → Option TokenPayload)
    (blacklist : List Token) (token : Option Token) : AuthResult :=
  match token with
  | none => .reject 403 "No token provided"
  | some t =>
    if blacklist.contains t then .reject 403 "Token has been revoked"
    else
      match verify t with
      | none => .reject 401 "Invalid token"
      | some decoded => .proceed decoded

/-- Translation of `authMiddleware` from
src/middlewares/auth.middleware.js: it loads all users with
`User.find(\x7b\x7d)` and tests `!user[0].refreshToken`, i.e. whether
the first user document of the collection has a missing refresh
token; on an empty collection the `user[0].refreshToken` access
throws and the catch replies 500. -/
def authMiddlewareUserScan (verify : Token → Option TokenPayload)
    (users : List User) (token : Option Token) : AuthResult :=
  match token with
  | none => .reject 403 "No token provided"
  | some t =>
    match users with
    | [] => .reject 500 "Server error"
    | u :: _ =>
      if u.refreshToken.isNone then .reject 403 "Token has been revoked"
      else
        match verify t with
        | none => .reject 401 "Invalid token"
        | some decoded => .proceed decoded

/-! Auth routes (src/routes/auth.routes.js). -/

/-- Response of POST /auth/register. -/
inductive RegisterResult where
  | badRequest (message : String)
  | created (message : String) (accessToken refreshToken : Token)
deriving DecidableEq

/-- HTTP status of a register response. -/
def RegisterResult.status : RegisterResult → Nat
  | .badRequest _ => 400
  | .created _ _ _ => 201

/-- Message field of a register response. -/
def RegisterResult.message : RegisterResult → String
  | .badRequest m => m
  | .created m _ _ => m

/-- Translation of POST /auth/register (src/routes/auth.routes.js):
validate the credentials, reject an already-registered email, hash the
password, persist the user, then issue both tokens and persist the
refresh token on the user. `hash` models `bcrypt.hash` (success
branch) and `freshId` the id the store assigns to the new document. -/
def register (hash : String → String) (freshId : Nat) (store : Store)
    (email password name : String) : RegisterResult × Store :=
  match validateUserCredentials email password with
  | some msg => (.badRequest msg, store)
  | none =>
    match store.users.find? (fun u => u.email == email) with
    | some _ => (.badRequest "User already registered", store)
    | none =>
      let newUser : User :=
        { id := freshId, email := email, password := hash password,
          name := name, role := none, refreshToken := none }
      let accessToken := generateAccessToken newUser
      let refreshToken := generateRefreshToken newUser
      let savedUser : User := { newUser with refreshToken := some refreshToken }
      (.created "Registration successful" accessToken refreshToken,
        { store with users := store.users ++ [savedUser] })

/-- Response of POST /auth/refresh-token. On success the body carries
the new access token and nothing else. -/
inductive RefreshResult where
  | tokenRequired
  | invalidToken
  | ok (accessToken : Token)
deriving DecidableEq

/-- HTTP status of a refresh response (401 required, 403 invalid,
200 success). -/
def RefreshResult.status : RefreshResult → Nat
  | .tokenRequired => 401
  | .invalidToken => 403
  | .ok _ => 200

/-- Translation of POST /auth/refresh-token
(src/routes/auth.routes.js): find the user whose stored refresh token
equals the presented one, verify the token with JWT_REFRESH_SECRET
(modelled by `verifyRefresh`), and on success answer with a newly
generated access token; no store write happens on any path. -/
def refreshTokenRoute (verifyRefresh : Token → Bool) (store : Store)
    (body : Option Token) : RefreshResult × Store :=
  match body with
  | none => (.tokenRequired, store)
  | some rt =>
    match store.users.find? (fun u => u.refreshToken == some rt) with
    | none => (.invalidToken, store)
    | some user =>
      if verifyRefresh rt then (.ok (generateAccessToken user), store)
      else (.invalidToken, store)

/-! Calendar routes (src/routes/calendar.routes.js). -/

/-- Response of DELETE /calendar/:calendarId. -/
inductive DeleteCalendarResult where
  | notFound
  | deleted
deriving DecidableEq

/-- HTTP status of a calendar-delete response. -/
def DeleteCalendarResult.status : DeleteCalendarResult → Nat
  | .notFound => 404
  | .deleted => 200

/-- Translation of DELETE /calendar/:calendarId:
`findOneAndDelete` on the conjunction of id and owner removes the
first matching calendar; no match answers 404. -/
def deleteCalendar (store : Store) (uid calendarId : Nat) :
    DeleteCalendarResult × Store :=
  match store.calendars.find? (fun c => c.id == calendarId && c.owner == uid) with
  | none => (.notFound, store)
  | some _ =>
    (.deleted,
      { store with calendars :=
          store.calendars.eraseP (fun c => c.id == calendarId && c.owner == uid) })

/-- Translation of GET /calendar: `Calendar.find` filtered to the
calendars owned by the requester. -/
def getCalendars (store : Store) (uid : Nat) : List Calendar :=
  store.calendars.filter (fun c => c.owner == uid)

/-! Event routes (src/routes/event.routes.js). -/

/-- Request body of POST /:calendarId/events. -/
structure EventInput where
  title : String
  description : String
  startTime : Int
  endTime : Int
  location : String
  attendees : List Nat
deriving DecidableEq

/-- Response of POST /:calendarId/events. -/
inductive CreateEventResult where
  | forbidden (message : String)
  | created (message : String) (event : Event)
deriving DecidableEq

/-- HTTP status of an event-creation response. -/
def CreateEventResult.status : CreateEventResult → Nat
  | .forbidden _ => 403
  | .created _ _ => 201

/-- Translation of POST /:calendarId/events: load the calendar and
answer 403 unless it exists and is owned by the requester; otherwise
persist the new event (organizer = requester), then append its id to
the calendar's event list and save the calendar. `freshId` models the
id the store assigns to the new event document. -/
def createEvent (store : Store) (uid calendarId : Nat) (input : EventInput)
    (freshId : Nat) : CreateEventResult × Store :=
  match store.calendars.find? (fun c => c.id == calendarId) with
  | none => (.forbidden "Access denied, you don\x27t own this calendar", store)
  | some calendar =>
    if !(calendar.owner == uid) then
      (.forbidden "Access denied, you don\x27t own this calendar", store)
    else
      let newEvent : Event :=
        { id := freshId, title := input.title, description := input.description,
          startTime := input.startTime, endTime := input.endTime,
          location := input.location, organizer := uid,
          attendees := input.attendees }
      (.created "Event created successfully" newEvent,
        { store with
            events := store.events ++ [newEvent],
            calendars := store.calendars.map (fun c =>
              if c.id == calendarId then { c with events := c.events ++ [freshId] }
              else c) })

/-- Event document with its organizer and attendees expanded by
`populate(..., "-password -refreshToken")`: references are replaced by
identity summaries, dangling references by null / dropped entries. -/
structure PopulatedEvent where
  id : Nat
  title : String
  description : String
  startTime : Int
  endTime : Int
  location : String
  organizer : Option UserSummary
  attendees : List UserSummary
deriving DecidableEq

/-- Expansion performed by the populate calls of the event routes. -/
def populateEvent (store : Store) (e : Event) : PopulatedEvent :=
  { id := e.id, title := e.title, description := e.description,
    startTime := e.startTime, endTime := e.endTime, location := e.location,
    organizer := (store.users.find? (fun u => u.id == e.organizer)).map stripSensitive,
    attendees := e.attendees.filterMap
      (fun a => (store.users.find? (fun u => u.id == a)).map stripSensitive) }

/-- Response of GET /events/:eventId. -/
inductive GetEventResult where
  | notFound
  | ok (event : PopulatedEvent)
deriving DecidableEq

/-- Translation of GET /events/:eventId: find the event by id, populate
organizer and attendees excluding the sensitive fields, 404 when the
id resolves to no event. -/
def getEventById (store : Store) (eventId : Nat) : GetEventResult :=
  match store.events.find? (fun e => e.id == eventId) with
  | none => .notFound
  | some e => .ok (populateEvent store e)

/-- Response of the presence-checking DELETE /:calendarId/events/:eventId
variant. -/
inductive RemoveEventResult where
  | forbidden
  | eventNotInCalendar
  | removed
deriving DecidableEq

/-- HTTP status of an event-removal response (403 not owner, 404 event
absent from the calendar list, 200 removed). -/
def RemoveEventResult.status : RemoveEventResult → Nat
  | .forbidden => 403
  | .eventNotInCalendar => 404
  | .removed => 200

/-- Translation of the presence-checking delete variant
(src/routes/event.routes.js, first delete handler): require calendar
ownership, answer 404 when the event id is not in the calendar's
event list, otherwise `pull` the id from the list (removing every
occurrence) and save the calendar; the Event collection is never
touched by this variant. -/
def deleteEventFromCalendar (store : Store) (uid calendarId eventId : Nat) :
    RemoveEventResult × Store :=
  match store.calendars.find? (fun c => c.id == calendarId) with
  | none => (.forbidden, store)
  | some calendar =>
    if !(calendar.owner == uid) then (.forbidden, store)
    else if !(calendar.events.contains eventId) then
      (.eventNotInCalendar, store)
    else
      (.removed,
        { store with calendars := store.calendars.map (fun c =>
            if c.id == calendarId then
              { c with events := c.events.filter (fun e => !(e == eventId)) }
            else c) })

/-- Response of GET /events/day/:date. -/
inductive DayLookupResult where
  | invalidDate
  | noEvents
  | ok (events : List PopulatedEvent)
deriving DecidableEq

/-- HTTP status of a day-lookup response. -/
def DayLookupResult.status : DayLookupResult → Nat
  | .invalidDate => 400
  | .noEvents => 404
  | .ok _ => 200

/-- Message of a day-lookup error response. -/
def DayLookupResult.message : DayLookupResult → String
  | .invalidDate => "Invalid date format"
  | .noEvents => "No events found for the specified date"
  | .ok _ => ""

/-- Milliseconds per day. -/
def msPerDay : Int := 86400000

/-- Timestamp produced by `providedDate.setHours(0, 0, 0, 0)`: the
start of the local day containing the given timestamp (local timezone
offset modelled as zero). -/
def startOfDayMs (t : Int) : Int := msPerDay * (t.fdiv msPerDay)

/-- Day-lookup query of GET /events/day/:date: events whose organizer
is the requester and whose startTime satisfies
`startOfDay <= startTime < endOfDay`, where startOfDay comes from
`setHours(0,0,0,0)` and endOfDay from `setHours(23,59,59,999)` on the
same date, i.e. endOfDay = startOfDay + msPerDay - 1. -/
def dayLookupEvents (store : Store) (uid : Nat) (parsed : Int) : List Event :=
  let startOfDay := startOfDayMs parsed
  let endOfDay := startOfDay + (msPerDay - 1)
  store.events.filter (fun e =>
    e.organizer == uid && decide (startOfDay ≤ e.startTime) &&
      decide (e.startTime < endOfDay))

/-- Translation of GET /events/day/:date: `parsed` is the result of
`new Date(date)` (none models NaN); an unparseable date answers 400
before any store access, an empty query result answers 404, otherwise
the populated events are returned. -/
def eventsDayRoute (store : Store) (uid : Nat) (parsed : Option Int) :
    DayLookupResult :=
  match parsed with
  | none => .invalidDate
  | some d =>
    let evs := dayLookupEvents store uid d
    if evs.isEmpty then .noEvents
    else .ok (evs.map (populateEvent store))


/-! Concrete fixtures used by witnesses and counterexamples. -/

/-- Claims of the demo user Bob. -/
def payloadBob : TokenPayload :=
  { email := "bob@example.com", id := 2, name := "Bob", role := none }

/-- Access token signed over Bob's claims. -/
def accessBob : Token := .access payloadBob

/-- Refresh token signed over Bob's claims. -/
def refreshBob : Token := .refresh payloadBob

/-- Concrete model of `jwt.verify` with the access secret: verification
succeeds exactly on access tokens. -/
def demoVerify : Token → Option TokenPayload
  | .access p => some p
  | .refresh _ => none

/-- Demo user with no active session (null refresh token). -/
def userAlice : User :=
  { id := 1, email := "alice@example.com", password := "hA", name := "Alice",
    role := none, refreshToken := none }

/-- Demo user with an active session (stored refresh token). -/
def userBob : User :=
  { id := 2, email := "bob@example.com", password := "hB", name := "Bob",
    role := none, refreshToken := some refreshBob }

/-- Store holding an identity already registered under the test email. -/
def storeC2 : Store :=
  { users := [{ id := 1, email := "test@example.com",
                password := "hashedPassword", name := "Test User",
                role := none, refreshToken := none }],
    calendars := [], events := [], blacklist := [] }

/-- Event starting at the last millisecond of the epoch day
(23:59:59.999 local). -/
def eventC3 : Event :=
  { id := 1, title := "Late", description := "", startTime := 86399999,
    endTime := 86400000, location := "", organizer := 1, attendees := [] }

/-- Store holding only the last-millisecond event. -/
def storeC3 : Store :=
  { users := [userAlice], calendars := [], events := [eventC3], blacklist := [] }

/-- Event starting comfortably inside the epoch day. -/
def eventC3w : Event :=
  { id := 2, title := "Morning", description := "", startTime := 1000,
    endTime := 2000, location := "", organizer := 1, attendees := [] }

/-- Store holding the in-range event. -/
def storeC3w : Store :=
  { users := [userAlice], calendars := [], events := [eventC3w], blacklist := [] }

/-- Calendar owned by Bob. -/
def calendarBob : Calendar := { id := 10, name := "Work", owner := 2, events := [] }

/-- Store where calendar 10 belongs to Bob; Alice will be the requester. -/
def storeC5 : Store :=
  { users := [userAlice, userBob], calendars := [calendarBob], events := [],
    blacklist := [] }

/-- Event creation body used by the witnesses. -/
def inputC5 : EventInput :=
  { title := "Standup", description := "daily", startTime := 100,
    endTime := 200, location := "HQ", attendees := [] }

/-- Store for the refresh-token witness: Bob with his stored session. -/
def storeC6 : Store :=
  { users := [userBob], calendars := [], events := [], blacklist := [] }

/-- Calendar owned by Alice holding two event references. -/
def calendarAlice7 : Calendar :=
  { id := 10, name := "Home", owner := 1, events := [5, 6] }

/-- Event record referenced by Alice's calendar. -/
def eventC7 : Event :=
  { id := 5, title := "Dinner", description := "", startTime := 0,
    endTime := 1, location := "", organizer := 1, attendees := [] }

/-- Store for the event-removal witness. -/
def storeC7 : Store :=
  { users := [userAlice], calendars := [calendarAlice7], events := [eventC7],
    blacklist := [] }

/-- Store where calendar 10 belongs to Bob and Alice requests deletion. -/
def storeC8 : Store :=
  { users := [userAlice, userBob], calendars := [calendarBob], events := [],
    blacklist := [] }

/-- Calendar owned by Alice, initially empty. -/
def calendarAlice9 : Calendar :=
  { id := 11, name := "Cal", owner := 1, events := [] }

/-- Store for the round-trip witness. -/
def storeC9 : Store :=
  { users := [userAlice], calendars := [calendarAlice9], events := [],
    blacklist := [] }

/-! Claim theorems. -/

/-- Claim C4: for every email and password, the credential validator returns
null exactly when all rules pass, and otherwise the message of the
first failing rule in the fixed order email pattern, length, upper,
lower, digit, special character — even when several rules fail. -/
theorem validateUserCredentials_spec (email password : String) :
    validateUserCredentials email password = firstViolation email password ∧
    (validateUserCredentials email password = none ↔
      (credentialRules email password).all (fun r => r.1) = true) := by
  unfold validateUserCredentials firstViolation credentialRules
  by_cases h2 : password.length < 8
  case pos =>
    have h2' : decide (8 ≤ password.length) = false := by
      simp [Nat.not_le]; exact h2
    cases h1 : emailRegexTest email <;>
      simp [h1, h2, h2', List.find?]
  case neg =>
    have h2' : decide (8 ≤ password.length) = true := by
      simp [Nat.not_lt] at h2; simpa using h2
    cases h1 : emailRegexTest email <;>
    cases h3 : password.toList.any Char.isUpper <;>
    cases h4 : password.toList.any Char.isLower <;>
    cases h5 : password.toList.any Char.isDigit <;>
    cases h6 : password.toList.any (fun c => specialChars.contains c) <;>
      simp [h1, h2, h2', h3, h4, h5, h6, List.find?]

/-- Claim C1 (amended): with a bearer token present, the blacklist variant
rejects 403 revoked exactly when the token is recorded in the
Revocation Store, and the user-scan variant rejects 403 revoked
exactly when the first Identity record of the store has a null
refresh token (not the requester's record); in either variant a
non-revoked request proceeds to signature verification. -/
theorem authGate_revokedCheck_amended (verify : Token → Option TokenPayload)
    (blacklist : List Token) (u : User) (rest : List User) (t : Token) :
    (authMiddlewareBlacklist verify blacklist (some t) =
        .reject 403 "Token has been revoked" ↔ t ∈ blacklist) ∧
    (t ∉ blacklist →
      authMiddlewareBlacklist verify blacklist (some t) =
        match verify t with
        | none => .reject 401 "Invalid token"
        | some d => .proceed d) ∧
    (authMiddlewareUserScan verify (u :: rest) (some t) =
        .reject 403 "Token has been revoked" ↔ u.refreshToken = none) ∧
    (u.refreshToken ≠ none →
      authMiddlewareUserScan verify (u :: rest) (some t) =
        match verify t with
        | none => .reject 401 "Invalid token"
        | some d => .proceed d) := by
  refine ⟨?_, ?_, ?_, ?_⟩
  · by_cases hb : t ∈ blacklist <;> cases hv : verify t <;>
      simp [authMiddlewareBlacklist, hb, hv]
  · intro hb; cases hv : verify t <;>
      simp [authMiddlewareBlacklist, hb, hv]
  · cases hr : u.refreshToken <;> cases hv : verify t <;>
      simp [authMiddlewareUserScan, hr, hv]
  · intro hr
    cases hr' : u.refreshToken with
    | none => exact absurd hr' hr
    | some rt => cases hv : verify t <;>
        simp [authMiddlewareUserScan, hr', hv]

/-- Claim C1 (counterexample): Bob presents a valid access token and Bob's
own Identity record holds a non-null refresh token, yet the user-scan
variant answers 403 revoked because the first record of the store
(Alice's) has a null refresh token. -/
theorem authGate_revokedCheck_counterexample :
    authMiddlewareUserScan demoVerify [userAlice, userBob] (some accessBob) =
      .reject 403 "Token has been revoked" ∧
    demoVerify accessBob = some payloadBob ∧
    payloadBob.id = userBob.id ∧
    userBob.refreshToken ≠ none ∧
    userBob ∈ [userAlice, userBob] := by decide

/-- Claim C1 (witness): concrete instances of the amended theorem. -/
theorem authGate_revokedCheck_witness :
    authMiddlewareBlacklist demoVerify [] (some accessBob) =
      .proceed payloadBob ∧
    authMiddlewareUserScan demoVerify [userAlice, userBob] (some accessBob) =
      .reject 403 "Token has been revoked" := by
  have h := authGate_revokedCheck_amended demoVerify [] userAlice [userBob]
    accessBob
  constructor
  · exact (h.2.1 (by simp)).trans rfl
  · exact h.2.2.1.mpr (by decide)

/-- Claim C2 (code bug): with the test email already registered and the
tests-sanctioned password "password" (which violates the uppercase
rule), the register route answers with the validation message, not
"User already registered" as the repository's own test expects. -/
theorem register_duplicateEmail_validation_bug :
    (register id 2 storeC2 "test@example.com" "password" "Test User").1 =
      .badRequest "Password must contain at least one uppercase letter" ∧
    (register id 2 storeC2 "test@example.com" "password" "Test User").1 ≠
      .badRequest "User already registered" ∧
    storeC2.users.find? (fun u => u.email == "test@example.com") ≠ none := by
  decide

/-- Claim C3 (counterexample): an event organized by the requester starting
at 23:59:59.999 of the requested day lies inside the claimed interval
(up to next-day midnight exclusive) yet the route excludes it and
answers 404. -/
theorem dayLookup_interval_counterexample :
    eventsDayRoute storeC3 1 (some 0) = .noEvents ∧
    (eventsDayRoute storeC3 1 (some 0)).status = 404 ∧
    eventC3 ∈ storeC3.events ∧
    eventC3.organizer = 1 ∧
    startOfDayMs 0 ≤ eventC3.startTime ∧
    eventC3.startTime < startOfDayMs 0 + msPerDay := by decide

/-- Claim C3 (amended): the day lookup returns exactly the requester's
events with startTime in the half-open interval from 00:00:00.000 to
23:59:59.999 (exclusive) of the local day, and answers 404 exactly
when that set is empty. -/
theorem dayLookup_interval_amended (store : Store) (uid : Nat) (d : Int) :
    (∀ e, e ∈ dayLookupEvents store uid d ↔
      e ∈ store.events ∧ e.organizer = uid ∧
      startOfDayMs d ≤ e.startTime ∧
      e.startTime < startOfDayMs d + (msPerDay - 1)) ∧
    (eventsDayRoute store uid (some d) = .noEvents ↔
      dayLookupEvents store uid d = []) ∧
    (dayLookupEvents store uid d ≠ [] →
      eventsDayRoute store uid (some d) =
        .ok ((dayLookupEvents store uid d).map (populateEvent store))) := by
  refine ⟨?_, ?_, ?_⟩
  · intro e
    simp [dayLookupEvents, List.mem_filter, and_assoc]
  · by_cases h : dayLookupEvents store uid d = [] <;>
      simp [eventsDayRoute, h, List.isEmpty_iff]
  · intro h
    simp [eventsDayRoute, List.isEmpty_iff, h]

/-- Claim C3 (witness): a store where the day query is nonempty, so the
amended theorem yields the populated 200 response. -/
theorem dayLookup_interval_witness :
    eventC3w ∈ dayLookupEvents storeC3w 1 0 ∧
    eventsDayRoute storeC3w 1 (some 0) =
      .ok ((dayLookupEvents storeC3w 1 0).map (populateEvent storeC3w)) := by
  have h := dayLookup_interval_amended storeC3w 1 0
  exact ⟨(h.1 eventC3w).mpr (by decide), h.2.2 (by decide)⟩

/-- Claim C5: event creation under a calendar that does not exist or is not
owned by the requester answers 403 and leaves the store untouched. -/
theorem createEvent_notOwner_rejected (store : Store) (uid calendarId : Nat)
    (input : EventInput) (freshId : Nat)
    (h : ∀ c, store.calendars.find? (fun x => x.id == calendarId) = some c →
      c.owner ≠ uid) :
    createEvent store uid calendarId input freshId =
      (.forbidden "Access denied, you don\x27t own this calendar", store) ∧
    (createEvent store uid calendarId input freshId).1.status = 403 := by
  cases hf : store.calendars.find? (fun x => x.id == calendarId) with
  | none =>
    constructor
    · simp [createEvent, hf]
    · simp [createEvent, hf, CreateEventResult.status]
  | some c =>
    have hne := h c hf
    constructor
    · simp [createEvent, hf, hne]
    · simp [createEvent, hf, hne, CreateEventResult.status]

/-- Claim C5 (witness): Alice requests creation under Bob's calendar. -/
theorem createEvent_notOwner_rejected_witness :
    createEvent storeC5 1 10 inputC5 99 =
      (.forbidden "Access denied, you don\x27t own this calendar", storeC5) ∧
    (createEvent storeC5 1 10 inputC5 99).1.status = 403 := by
  refine createEvent_notOwner_rejected storeC5 1 10 inputC5 99 ?_
  intro c hc
  have hfind : storeC5.calendars.find? (fun x => x.id == 10) =
      some calendarBob := by decide
  rw [hfind] at hc
  injection hc with hc
  subst hc
  decide

/-- Claim C6: a successful refresh-token exchange answers with exactly the
newly generated access token for the matched user and leaves the
store — in particular the matched Identity and its refresh token —
unchanged. -/
theorem refreshToken_success_frame (verifyRefresh : Token → Bool)
    (store : Store) (rt : Token) (user : User)
    (hfind : store.users.find? (fun u => u.refreshToken == some rt) =
      some user)
    (hv : verifyRefresh rt = true) :
    refreshTokenRoute verifyRefresh store (some rt) =
      (.ok (generateAccessToken user), store) ∧
    (refreshTokenRoute verifyRefresh store (some rt)).1.status = 200 := by
  constructor
  · simp [refreshTokenRoute, hfind, hv]
  · simp [refreshTokenRoute, hfind, hv, RefreshResult.status]

/-- Claim C6 (witness): Bob exchanges his stored refresh token. -/
theorem refreshToken_success_frame_witness :
    refreshTokenRoute (fun _ => true) storeC6 (some refreshBob) =
      (.ok (generateAccessToken userBob), storeC6) ∧
    (refreshTokenRoute (fun _ => true) storeC6 (some refreshBob)).1.status =
      200 :=
  refreshToken_success_frame (fun _ => true) storeC6 refreshBob userBob
    (by decide) rfl

/-- Claim C7: in the presence-checking delete variant, when the requester
owns the calendar: an event id absent from the calendar's list answers
404 with the whole store untouched, and a present id is detached from
the calendar's list while the Event collection stays untouched. -/
theorem removeEvent_presenceCheck_spec (store : Store)
    (uid calendarId eventId : Nat) (cal : Calendar)
    (hfind : store.calendars.find? (fun c => c.id == calendarId) = some cal)
    (howner : cal.owner = uid) :
    (eventId ∉ cal.events →
      deleteEventFromCalendar store uid calendarId eventId =
        (.eventNotInCalendar, store) ∧
      (deleteEventFromCalendar store uid calendarId eventId).1.status = 404) ∧
    (eventId ∈ cal.events →
      (deleteEventFromCalendar store uid calendarId eventId).1 = .removed ∧
      (deleteEventFromCalendar store uid calendarId eventId).2.events =
        store.events ∧
      (deleteEventFromCalendar store uid calendarId eventId).2.users =
        store.users ∧
      (∀ c ∈ (deleteEventFromCalendar store uid calendarId eventId).2.calendars,
        c.id = calendarId → eventId ∉ c.events)) := by
  constructor
  · intro habs
    constructor
    · simp [deleteEventFromCalendar, hfind, howner, habs]
    · simp [deleteEventFromCalendar, hfind, howner, habs,
        RemoveEventResult.status]
  · intro hpres
    refine ⟨?_, ?_, ?_, ?_⟩
    · simp [deleteEventFromCalendar, hfind, howner, hpres]
    · simp [deleteEventFromCalendar, hfind, howner, hpres]
    · simp [deleteEventFromCalendar, hfind, howner, hpres]
    · intro c hc hcid
      simp [deleteEventFromCalendar, hfind, howner, hpres] at hc
      obtain ⟨c₀, hc₀, rfl⟩ := hc
      by_cases h : c₀.id = calendarId
      · simp [h]
      · simp [h] at hcid

/-- Claim C7 (witness): removal of the absent event 7 answers 404 leaving
everything in place; removal of the present event 5 detaches it. -/
theorem removeEvent_presenceCheck_witness :
    (deleteEventFromCalendar storeC7 1 10 7 =
        (.eventNotInCalendar, storeC7) ∧
      (deleteEventFromCalendar storeC7 1 10 7).1.status = 404) ∧
    ((deleteEventFromCalendar storeC7 1 10 5).1 = .removed ∧
      (deleteEventFromCalendar storeC7 1 10 5).2.events = storeC7.events) := by
  have h7 := removeEvent_presenceCheck_spec storeC7 1 10 7 calendarAlice7
    (by decide) (by decide)
  have h5 := removeEvent_presenceCheck_spec storeC7 1 10 5 calendarAlice7
    (by decide) (by decide)
  exact ⟨h7.1 (by decide), ⟨(h5.2 (by decide)).1, (h5.2 (by decide)).2.1⟩⟩

/-- Claim C8: deleting a calendar the requester does not own answers 404,
the store is unchanged, and the calendar is still returned by its
owner's listing. -/
theorem deleteCalendar_notOwner_spec (store : Store) (uid calendarId : Nat)
    (cal : Calendar)
    (hmem : cal ∈ store.calendars) (hid : cal.id = calendarId)
    (howner : cal.owner ≠ uid)
    (huniq : ∀ c ∈ store.calendars, c.id = calendarId → c = cal) :
    deleteCalendar store uid calendarId = (.notFound, store) ∧
    (deleteCalendar store uid calendarId).1.status = 404 ∧
    cal ∈ getCalendars (deleteCalendar store uid calendarId).2 cal.owner := by
  have hf : store.calendars.find?
      (fun c => c.id == calendarId && c.owner == uid) = none := by
    apply List.find?_eq_none.mpr
    intro x hx hpx
    simp only [Bool.and_eq_true, beq_iff_eq] at hpx
    obtain ⟨h1, h2⟩ := hpx
    have hx' := huniq x hx h1
    subst hx'
    exact howner h2
  refine ⟨?_, ?_, ?_⟩
  · simp [deleteCalendar, hf]
  · simp [deleteCalendar, hf, DeleteCalendarResult.status]
  · simp [deleteCalendar, hf, getCalendars, List.mem_filter, hmem]

/-- Claim C8 (witness): Alice requests deletion of Bob's calendar. -/
theorem deleteCalendar_notOwner_spec_witness :
    deleteCalendar storeC8 1 10 = (.notFound, storeC8) ∧
    (deleteCalendar storeC8 1 10).1.status = 404 ∧
    calendarBob ∈ getCalendars (deleteCalendar storeC8 1 10).2
      calendarBob.owner := by
  refine deleteCalendar_notOwner_spec storeC8 1 10 calendarBob (by decide)
    (by decide) (by decide) ?_
  intro c hc hcid
  have : c ∈ [calendarBob] := hc
  simp only [List.mem_singleton] at this
  exact this

/-- Claim C9: creating an event in an owned calendar and fetching it by the
returned id yields the same title, startTime and endTime, with the
organizer expanded to the requester's identity summary, a record
without password or refresh-token fields. -/
theorem createEvent_get_roundtrip (store : Store) (uid calendarId : Nat)
    (input : EventInput) (freshId : Nat) (cal : Calendar) (requester : User)
    (hcal : store.calendars.find? (fun c => c.id == calendarId) = some cal)
    (howner : cal.owner = uid)
    (hfresh : ∀ e ∈ store.events, e.id ≠ freshId)
    (huser : store.users.find? (fun u => u.id == uid) = some requester) :
    ∃ ev : Event,
      (createEvent store uid calendarId input freshId).1 =
        .created "Event created successfully" ev ∧
      ev.id = freshId ∧ ev.title = input.title ∧
      ev.startTime = input.startTime ∧ ev.endTime = input.endTime ∧
      ∃ pe : PopulatedEvent,
        getEventById (createEvent store uid calendarId input freshId).2 ev.id =
          .ok pe ∧
        pe.title = input.title ∧ pe.startTime = input.startTime ∧
        pe.endTime = input.endTime ∧
        pe.organizer = some (stripSensitive requester) := by
  have hnone : store.events.find? (fun e => e.id == freshId) = none := by
    apply List.find?_eq_none.mpr
    intro e he hpe
    exact hfresh e he (by simpa using hpe)
  refine ⟨{ id := freshId, title := input.title,
            description := input.description, startTime := input.startTime,
            endTime := input.endTime, location := input.location,
            organizer := uid, attendees := input.attendees }, ?_, rfl, rfl,
          rfl, rfl, ?_⟩
  · simp [createEvent, hcal, howner]
  · refine ⟨populateEvent
      (createEvent store uid calendarId input freshId).2
      { id := freshId, title := input.title,
        description := input.description, startTime := input.startTime,
        endTime := input.endTime, location := input.location,
        organizer := uid, attendees := input.attendees }, ?_, rfl, rfl, rfl, ?_⟩
    · simp [createEvent, hcal, howner, getEventById, List.find?_append, hnone]
    · simp [createEvent, hcal, howner, populateEvent, huser]

/-- Claim C9 (witness): Alice creates "Standup" in her calendar and fetches
it back. -/
theorem createEvent_get_roundtrip_witness :
    ∃ ev : Event,
      (createEvent storeC9 1 11 inputC5 42).1 =
        .created "Event created successfully" ev ∧
      ev.id = 42 ∧ ev.title = inputC5.title ∧
      ev.startTime = inputC5.startTime ∧ ev.endTime = inputC5.endTime ∧
      ∃ pe : PopulatedEvent,
        getEventById (createEvent storeC9 1 11 inputC5 42).2 ev.id = .ok pe ∧
        pe.title = inputC5.title ∧ pe.startTime = inputC5.startTime ∧
        pe.endTime = inputC5.endTime ∧
        pe.organizer = some (stripSensitive userAlice) :=
  createEvent_get_roundtrip storeC9 1 11 inputC5 42 calendarAlice9 userAlice
    (by decide) (by decide) (by intro e he; simp [storeC9] at he)
    (by decide)

/-- Claim C10: an unparseable date answers 400 "Invalid date format" for
every store and requester, in particular without consulting the Event
store. -/
theorem dayLookup_invalidDate_spec (store : Store) (uid : Nat) :
    eventsDayRoute store uid none = .invalidDate ∧
    (eventsDayRoute store uid none).status = 400 ∧
    (eventsDayRoute store uid none).message = "Invalid date format" :=
  ⟨rfl, rfl, rfl⟩

end TRJ
